/-
Verification of the goods-receiving portal (entradas-app): a shallow
embedding of `recepciones_api.py`, `sap_client.py` and the relevant parts
of `auth.py`, with theorems settling the specification claims about
idempotent receipt posting, quantity validation, warehouse authorization,
the ERP transport's 401 retry protocol, session management, and the
date-literal fallback of the purchase-order listing.

Machine integers of the source are modelled as `Int`/`Nat`; Python floats
(receipt quantities, open quantities) are modelled as `Rat`, with the
float `repr` used by `json.dumps` modelled on the decimal-representable
fragment (all quantities exercised by the claims are exact decimals).
-/
import Mathlib

set_option maxRecDepth 4000

namespace Entradas

/-! ## SHA-256 (as used by `hashlib.sha256(...).hexdigest()`)

A bignum-based implementation of FIPS 180-4 SHA-256 over byte lists,
32-bit words as `Nat` reduced modulo `2^32`. -/

namespace Sha256

def M32 : Nat := 4294967296

def rotr (n x : Nat) : Nat := ((x >>> n) ||| (x <<< (32 - n))) % M32

def bsig0 (x : Nat) : Nat := (rotr 2 x) ^^^ (rotr 13 x) ^^^ (rotr 22 x)

def bsig1 (x : Nat) : Nat := (rotr 6 x) ^^^ (rotr 11 x) ^^^ (rotr 25 x)

def ssig0 (x : Nat) : Nat := (rotr 7 x) ^^^ (rotr 18 x) ^^^ (x >>> 3)

def ssig1 (x : Nat) : Nat := (rotr 17 x) ^^^ (rotr 19 x) ^^^ (x >>> 10)

def K : List Nat :=
  [1116352408, 1899447441, 3049323471, 3921009573, 961987163,
   1508970993, 2453635748, 2870763221, 3624381080, 310598401,
   607225278, 1426881987, 1925078388, 2162078206, 2614888103,
   3248222580, 3835390401, 4022224774, 264347078, 604807628,
   770255983, 1249150122, 1555081692, 1996064986, 2554220882,
   2821834349, 2952996808, 3210313671, 3336571891, 3584528711,
   113926993, 338241895, 666307205, 773529912, 1294757372,
   1396182291, 1695183700, 1986661051, 2177026350, 2456956037,
   2730485921, 2820302411, 3259730800, 3345764771, 3516065817,
   3600352804, 4094571909, 275423344, 430227734, 506948616,
   659060556, 883997877, 958139571, 1322822218, 1537002063,
   1747873779, 1955562222, 2024104815, 2227730452, 2361852424,
   2428436474, 2756734187, 3204031479, 3329325298]

def H0 : List Nat :=
  [1779033703, 3144134277, 1013904242, 2773480762,
   1359893119, 2600822924, 528734635, 1541459225]

/-- Big-endian bytes of `n`, `k` bytes wide. -/
def beBytes (k n : Nat) : List Nat :=
  match k with
  | 0 => []
  | k + 1 => (n >>> (8 * k)) % 256 :: beBytes k n

/-- FIPS 180-4 padding: append 0x80, zeros to 56 mod 64, then the 64-bit
big-endian bit length. -/
def pad (msg : List Nat) : List Nat :=
  let len := msg.length
  let zeros := (119 - len % 64) % 64
  msg ++ [0x80] ++ List.replicate zeros 0 ++ beBytes 8 (8 * len)

/-- Group bytes into big-endian 32-bit words. -/
def toWords : List Nat → List Nat
  | a :: b :: c :: d :: rest => (((a * 256 + b) * 256 + c) * 256 + d) :: toWords rest
  | _ => []

/-- Split a word list into 16-word blocks (fuel-driven for structural
recursion; `fuel = ws.length` suffices). -/
def chunk16 : Nat → List Nat → List (List Nat)
  | 0, _ => []
  | _, [] => []
  | fuel + 1, ws => ws.take 16 :: chunk16 fuel (ws.drop 16)

/-- Message-schedule extension from 16 to 64 words. `i` counts the words
still to be produced. -/
def extend : Nat → List Nat → List Nat
  | 0, w => w
  | i + 1, w =>
    let t := w.length
    let wt := (ssig1 (w.getD (t - 2) 0) + w.getD (t - 7) 0 +
               ssig0 (w.getD (t - 15) 0) + w.getD (t - 16) 0) % M32
    extend i (w ++ [wt])

structure Regs where
  a : Nat
  b : Nat
  c : Nat
  d : Nat
  e : Nat
  f : Nat
  g : Nat
  h : Nat

def round (r : Regs) (k w : Nat) : Regs :=
  let ch := (r.e &&& r.f) ^^^ ((M32 - 1 - r.e) &&& r.g)
  let t1 := (r.h + bsig1 r.e + ch + k + w) % M32
  let maj := (r.a &&& r.b) ^^^ (r.a &&& r.c) ^^^ (r.b &&& r.c)
  let t2 := (bsig0 r.a + maj) % M32
  ⟨(t1 + t2) % M32, r.a, r.b, r.c, (r.d + t1) % M32, r.e, r.f, r.g⟩

def rounds : Regs → List Nat → List Nat → Regs
  | r, k :: ks, w :: ws => rounds (round r k w) ks ws
  | r, _, _ => r

def compress (h : List Nat) (block : List Nat) : List Nat :=
  let w := extend 48 block
  let r0 : Regs := ⟨h.getD 0 0, h.getD 1 0, h.getD 2 0, h.getD 3 0,
                    h.getD 4 0, h.getD 5 0, h.getD 6 0, h.getD 7 0⟩
  let r := rounds r0 K w
  [(h.getD 0 0 + r.a) % M32, (h.getD 1 0 + r.b) % M32,
   (h.getD 2 0 + r.c) % M32, (h.getD 3 0 + r.d) % M32,
   (h.getD 4 0 + r.e) % M32, (h.getD 5 0 + r.f) % M32,
   (h.getD 6 0 + r.g) % M32, (h.getD 7 0 + r.h) % M32]

def digestWords (msg : List Nat) : List Nat :=
  let ws := toWords (pad msg)
  (chunk16 ws.length ws).foldl compress H0

def hexDigit (n : Nat) : Char :=
  if n < 10 then Char.ofNat (48 + n) else Char.ofNat (87 + n)

/-- 8 lowercase hex digits of a 32-bit word. -/
def wordHex (w : Nat) : List Char :=
  [hexDigit ((w >>> 28) % 16), hexDigit ((w >>> 24) % 16),
   hexDigit ((w >>> 20) % 16), hexDigit ((w >>> 16) % 16),
   hexDigit ((w >>> 12) % 16), hexDigit ((w >>> 8) % 16),
   hexDigit ((w >>> 4) % 16), hexDigit (w % 16)]

/-- Hex digest of a byte list, as `hashlib.sha256(bytes).hexdigest()`. -/
def hexOfBytes (msg : List Nat) : String :=
  String.mk ((digestWords msg).flatMap wordHex)

/-- Hex digest of an ASCII string's UTF-8 bytes. All strings hashed by the
source are ASCII because `json.dumps` escapes non-ASCII by default. -/
def hexOfString (s : String) : String :=
  hexOfBytes (s.data.map Char.toNat)

end Sha256

/-! ## JSON serialization (as used by
`json.dumps(op_payload, separators=(",",":"), sort_keys=True)`)

Python receipt quantities are floats; they are modelled as `Rat` and their
`repr` (used by `json.dumps`) is modelled exactly on rationals with a
finite decimal expansion, which covers every value the endpoints handle. -/

def hex4 (n : Nat) : String :=
  String.mk [Sha256.hexDigit ((n >>> 12) % 16), Sha256.hexDigit ((n >>> 8) % 16),
             Sha256.hexDigit ((n >>> 4) % 16), Sha256.hexDigit (n % 16)]

/-- One character of a JSON string under `ensure_ascii=True`: everything
outside printable ASCII is escaped. -/
def escChar (c : Char) : String :=
  let n := c.toNat
  if n = 34 then "\\\""
  else if n = 92 then "\\\\"
  else if n = 8 then "\\b"
  else if n = 9 then "\\t"
  else if n = 10 then "\\n"
  else if n = 12 then "\\f"
  else if n = 13 then "\\r"
  else if 32 ≤ n && n < 127 then String.mk [c]
  else if n < 65536 then "\\u" ++ hex4 n
  else "\\u" ++ hex4 (55296 + (n - 65536) / 1024) ++ "\\u" ++ hex4 (56320 + (n - 65536) % 1024)

def jsonStr (s : String) : String :=
  "\"" ++ String.join (s.data.map escChar) ++ "\""

/-- Least `k ≤ 40` with `den ∣ 10 ^ k`, if any. -/
def ratDecExp (den : Nat) : Option Nat :=
  (List.range 41).find? (fun k => 10 ^ k % den == 0)

def natPad (k : Nat) (s : String) : String :=
  String.mk (List.replicate (k - s.length) '0') ++ s

/-- Python float `repr` on the decimal fragment: `5.0`, `0.5`, `-2.25`. -/
def reprRat (q : Rat) : String :=
  match ratDecExp q.den with
  | some 0 => toString q.num ++ ".0"
  | some k =>
    let sign := if q.num < 0 then "-" else ""
    let n := q.num.natAbs * 10 ^ k / q.den
    sign ++ toString (n / 10 ^ k) ++ "." ++ natPad k (toString (n % 10 ^ k))
  | none => toString q.num ++ "/" ++ toString q.den

/-! ## Data model of `recepciones_api.py` and `sap_client.py` reads -/

/-- Authenticated caller: the JWT claims `sub` and `warehouses` injected by
`require_auth` and read by `_get_user` / `user_can_access_whs`. -/
structure User where
  sub : String
  warehouses : List String
  deriving DecidableEq, Repr

/-- One entry of the request's `lines` array: either it parses via
`int(l["lineNum"])` / `float(l["quantity"])` or those conversions raise. -/
inductive InLine
  | line (lineNum : Int) (quantity : Rat)
  | malformed
  deriving DecidableEq, Repr

/-- Nested `DocumentLines` entry of the raw Service Layer order document.
Optional fields model keys that may be absent (`d.get(...)`). -/
structure RawLine where
  lineNum : Int
  itemCode : String
  itemDescription : Option String
  quantity : Option Rat
  openQuantity : Option Rat
  warehouseCode : Option String
  deriving DecidableEq, Repr

structure RawOrder where
  docEntry : Int
  docNum : Int
  docDueDate : Option String
  documentLines : List RawLine
  deriving DecidableEq, Repr

/-- `float(d.get("X") or 0)`: missing or falsy (0) source value becomes 0. -/
def floatOr0 (o : Option Rat) : Rat := o.getD 0

/-- Line of the gateway's order-detail projection. -/
structure OrderLine where
  lineNum : Int
  itemCode : String
  description : Option String
  orderedQty : Rat
  receivedQty : Rat
  openQty : Rat
  warehouseCode : Option String
  deriving DecidableEq, Repr

structure OrderDetail where
  docEntry : Int
  docNum : Int
  docDueDate : Option String
  lines : List OrderLine
  deriving DecidableEq, Repr

/-- `SapClient.get_purchase_order`: fetch one order, filter lines to the
requested warehouse with positive open quantity, defaulting missing
numeric fields to 0. -/
def get_purchase_order (o : RawOrder) (whs : Option String) : OrderDetail :=
  let filtered := o.documentLines.filter fun d =>
    whs.isNone || (d.warehouseCode == whs && decide (0 < floatOr0 d.openQuantity))
  let lines_out := filtered.map fun d =>
    let qty := floatOr0 d.quantity
    let openq := floatOr0 d.openQuantity
    { lineNum := d.lineNum, itemCode := d.itemCode, description := d.itemDescription,
      orderedQty := qty, receivedQty := qty - openq, openQty := openq,
      warehouseCode := d.warehouseCode : OrderLine }
  { docEntry := o.docEntry, docNum := o.docNum, docDueDate := o.docDueDate,
    lines := lines_out }

/-! ## Receipt posting (`post_receipt` in `recepciones_api.py`) -/

/-- Request body of `POST /receipts`. `docEntry = none` models a missing or
non-integer value; `whsCode = none` a missing/empty value (falls back to
the token's first warehouse); `supplierRef = none` a missing/falsy value. -/
structure Body where
  docEntry : Option Int
  whsCode : Option String
  supplierRef : Option String
  lines : List InLine
  deriving DecidableEq, Repr

/-- `body.get("whsCode") or _default_whs_from_user()`. -/
def resolveWhs (whsParam : Option String) (u : User) : Option String :=
  whsParam <|> u.warehouses.head?

/-- Row of `receipts_log` as inserted by `post_receipt`. -/
structure LogRow where
  poDocEntry : Int
  poLineNum : Option Int
  itemCode : Option String
  whsCode : String
  postedQty : Rat
  postedBy : String
  slDocEntry : Int
  payloadJson : String
  opHash : Option String
  deriving DecidableEq, Repr

/-- The `receipts_log` table. `opHashColumn = false` models a schema where
the `op_hash` column does not exist, so queries naming it raise
`psycopg.Error`. -/
structure Store where
  opHashColumn : Bool
  rows : List LogRow
  deriving DecidableEq, Repr

/-- `SELECT 1 FROM receipts_log WHERE op_hash=%s` found a row (only
meaningful when the column exists). -/
def storeHasHash (store : Store) (h : String) : Bool :=
  store.rows.any fun r => r.opHash == some h

inductive ValMsg
  | invalidDocEntry
  | whsRequired
  | linesRequired
  | badLineFormat
  | negativeQty (lineNum : Int)
  | qtyExceeds (qty openQty : Rat) (lineNum : Int)
  | noPositiveQty
  deriving DecidableEq, Repr

inductive PostResp
  | created (grpoDocEntry : Int) (opHash : String)
  | validation (m : ValMsg)
  | forbidden (whs : String)
  | duplicate
  deriving DecidableEq, Repr

/-- Result of the per-line validation loop. -/
inductive VRes
  | err (m : ValMsg)
  | ok (toPost : List (Int × Rat))
  deriving DecidableEq, Repr

/-- `{int(l["lineNum"]): float(l["openQty"]) for l in detail["lines"]}`,
kept as an association list; dict semantics (last occurrence wins) via
`lookupLast`. -/
def openBy (o : RawOrder) (whs : String) : List (Int × Rat) :=
  (get_purchase_order o (some whs)).lines.map fun l => (l.lineNum, l.openQty)

def lookupLast (xs : List (Int × Rat)) (k : Int) : Option Rat :=
  (xs.reverse.find? fun p => p.1 == k).map (·.2)

/-- `open_by_line.get(ln, 0.0)`. -/
def maxOpenFor (ob : List (Int × Rat)) (ln : Int) : Rat :=
  (lookupLast ob ln).getD 0

/-- The validation loop of `post_receipt`: parse each line, reject negative
quantities, reject quantities above the line's current open quantity, and
keep only strictly positive quantities for posting. -/
def validateLines (ob : List (Int × Rat)) : List InLine → VRes
  | [] => .ok []
  | .malformed :: _ => .err .badLineFormat
  | .line ln qty :: rest =>
    if qty < 0 then .err (.negativeQty ln)
    else if qty > maxOpenFor ob ln then .err (.qtyExceeds qty (maxOpenFor ob ln) ln)
    else
      match validateLines ob rest with
      | .err m => .err m
      | .ok tl => .ok (if qty > 0 then (ln, qty) :: tl else tl)

/-- Stable insertion preserving the relative order of equal keys, matching
Python's stable `sorted(..., key=lambda x: x["lineNum"])`. -/
def insertByLineNum (x : Int × Rat) : List (Int × Rat) → List (Int × Rat)
  | [] => [x]
  | y :: ys => if y.1 < x.1 then y :: insertByLineNum x ys else x :: y :: ys

def sortByLineNum (xs : List (Int × Rat)) : List (Int × Rat) :=
  xs.foldr insertByLineNum []

def jsonLine (p : Int × Rat) : String :=
  "\x7b\"lineNum\":" ++ toString p.1 ++ ",\"quantity\":" ++ reprRat p.2 ++ "\x7d"

def jsonLines (ps : List (Int × Rat)) : String :=
  "[" ++ String.intercalate "," (ps.map jsonLine) ++ "]"

/-- The exact string `json.dumps(op_payload, separators=(",",":"),
sort_keys=True)` produces: keys in sorted order
`date, docEntry, lines, sub, supplierRef, whs`, with `supplierRef`
included only when present. -/
def opPayloadJson (sub : String) (docEntry : Int) (whs : String)
    (sortedLines : List (Int × Rat)) (date : String) (supplierRef : Option String) : String :=
  "\x7b\"date\":" ++ jsonStr date ++
  ",\"docEntry\":" ++ toString docEntry ++
  ",\"lines\":" ++ jsonLines sortedLines ++
  ",\"sub\":" ++ jsonStr sub ++
  (match supplierRef with
   | some r => ",\"supplierRef\":" ++ jsonStr r
   | none => "") ++
  ",\"whs\":" ++ jsonStr whs ++ "\x7d"

/-- `op_hash`: SHA-256 hex digest of the canonical payload, lines sorted by
`lineNum` before hashing. -/
def op_hash (sub : String) (docEntry : Int) (whs : String)
    (toPost : List (Int × Rat)) (date : String) (supplierRef : Option String) : String :=
  Sha256.hexOfString (opPayloadJson sub docEntry whs (sortByLineNum toPost) date supplierRef)

def sumQty (ps : List (Int × Rat)) : Rat :=
  ps.foldl (fun a p => a + p.2) 0

/-- `json.dumps(res)[:65000]`: Python slices strings by codepoint. -/
def truncChars (n : Nat) (s : String) : String := String.mk (s.data.take n)

/-- ERP response to `post_grpo` (`POST /PurchaseDeliveryNotes`): the
assigned `DocEntry` and the raw JSON body persisted for audit. -/
structure GrpoRes where
  docEntry : Int
  rawJson : String
  deriving DecidableEq, Repr

/-- Full observable outcome of one `post_receipt` call: the HTTP response,
whether any ERP call was made (the order-detail read), whether the GRPO
write was submitted, the `receipts_log` rows inserted, and the resulting
store. -/
structure PostOutcome where
  resp : PostResp
  erpCalled : Bool
  grpoPosted : Bool
  inserted : List LogRow
  store : Store
  deriving DecidableEq, Repr

/-- `post_receipt` of `recepciones_api.py`, parameterized by the raw order
the ERP returns for the validation read (`o`), the ERP's response to the
GRPO write (`g`), today's ISO date, and the current `receipts_log`. -/
def post_receipt (u : User) (body : Body) (o : RawOrder) (g : GrpoRes)
    (today : String) (store : Store) : PostOutcome :=
  match body.docEntry with
  | none => ⟨.validation .invalidDocEntry, false, false, [], store⟩
  | some docEntry =>
    match resolveWhs body.whsCode u with
    | none => ⟨.validation .whsRequired, false, false, [], store⟩
    | some whs =>
      if u.warehouses.contains whs = false then ⟨.forbidden whs, false, false, [], store⟩
      else if body.lines.isEmpty then ⟨.validation .linesRequired, false, false, [], store⟩
      else
        match validateLines (openBy o whs) body.lines with
        | .err m => ⟨.validation m, true, false, [], store⟩
        | .ok toPost =>
          if toPost.isEmpty then ⟨.validation .noPositiveQty, true, false, [], store⟩
          else
            let h := op_hash u.sub docEntry whs toPost today body.supplierRef
            if store.opHashColumn && storeHasHash store h then
              ⟨.duplicate, true, false, [], store⟩
            else
              let row : LogRow :=
                ⟨docEntry, none, none, whs, sumQty toPost, u.sub, g.docEntry,
                 truncChars 65000 g.rawJson, if store.opHashColumn then some h else none⟩
              ⟨.created g.docEntry h, true, true, [row],
               ⟨store.opHashColumn, store.rows ++ [row]⟩⟩

/-! ## The two read endpoints (`list_orders`, `get_order`) -/

inductive GateResp (α : Type)
  | ok (data : α)
  | validationNoWhs
  | forbidden (whs : String)
  | notFound
  deriving DecidableEq, Repr

structure EndpointOut (α : Type) where
  resp : GateResp α
  erpCalled : Bool
  deriving DecidableEq, Repr

/-- `GET /orders`: resolve the warehouse, reject unauthorized access before
constructing the SAP client, otherwise call the gateway (whose result is
the parameter `erpData`). -/
def list_orders {α : Type} (u : User) (whsParam : Option String) (erpData : α) :
    EndpointOut α :=
  match resolveWhs whsParam u with
  | none => ⟨.validationNoWhs, false⟩
  | some whs =>
    if u.warehouses.contains whs = false then ⟨.forbidden whs, false⟩
    else ⟨.ok erpData, true⟩

/-- `GET /orders/(docEntry)`: same warehouse resolution and authorization,
then the detail fetch; an empty filtered line set is a 404. -/
def get_order (u : User) (_docEntry : Int) (whsParam : Option String)
    (o : RawOrder) : EndpointOut OrderDetail :=
  match resolveWhs whsParam u with
  | none => ⟨.validationNoWhs, false⟩
  | some whs =>
    if u.warehouses.contains whs = false then ⟨.forbidden whs, false⟩
    else
      let data := get_purchase_order o (some whs)
      if data.lines.isEmpty then ⟨.notFound, true⟩ else ⟨.ok data, true⟩

/-! ## ERP transport (`SapClient.login`, `ensure_session`, `_request`)

The HTTP environment is a script: `logins` lists the outcomes of
successive `POST /Login` calls, `calls` the outcomes of successive
physical HTTP attempts to the target URL, each consumed front to back
(defaults apply only past the end of a script and are never reached under
the theorems' hypotheses). -/

/-- Client-side session state: `self._session_id`. The source stores no
timestamp for the session. -/
structure ClientState where
  sessionId : Option String
  deriving DecidableEq, Repr

/-- One physical HTTP attempt: a transport-level exception
(`SSLError`/`ConnectionError`/`Timeout`) or a response status. -/
inductive CallRes
  | exn
  | resp (status : Nat)
  deriving DecidableEq, Repr

inductive LoginRes
  | ok (sid : String)
  | failed (status : Nat)
  deriving DecidableEq, Repr

/-- `response.raise_for_status()` raises for 4xx/5xx. -/
def raisesFor (status : Nat) : Bool := 400 ≤ status

/-- Result of a `login` call: the new state, or the status of the
`raise_for_status` exception. -/
inductive LoginOut
  | ok (st : ClientState)
  | raised (status : Nat)
  deriving DecidableEq, Repr

structure EnsureOutcome where
  result : LoginOut
  loginCount : Nat
  deriving DecidableEq, Repr

/-- `SapClient.login`: POST credentials; non-2xx raises; on success the
cookie jar is reset and the new session id installed. -/
def login (logins : List LoginRes) : LoginOut :=
  match logins.headD (.failed 599) with
  | .ok sid => .ok ⟨some sid⟩
  | .failed s => .raised s

/-- `SapClient.ensure_session`: `if not self._session_id: self.login()`.
No other condition is checked. -/
def ensure_session (st : ClientState) (logins : List LoginRes) : EnsureOutcome :=
  if st.sessionId.isSome then ⟨.ok st, 0⟩
  else ⟨login logins, 1⟩

inductive ReqOutcome
  | success (status : Nat)
  | httpError (status : Nat)
  | transportExn
  | loginHttpError (status : Nat)
  deriving DecidableEq, Repr

structure ReqTrace where
  outcome : ReqOutcome
  finalState : ClientState
  loginCount : Nat
  attemptCount : Nat
  deriving DecidableEq, Repr

/-- Classify a non-401 response through `raise_for_status`. -/
def settle (status : Nat) : ReqOutcome :=
  if raisesFor status then .httpError status else .success status

/-- `SapClient._request`: ensure a session; one backoff retry on a
transport exception during the first attempt; on a 401 exactly one
re-login and one retry of the original call, whose status is then settled
by `raise_for_status` (so a second 401 raises instead of looping). -/
def sapRequest (st : ClientState) (logins : List LoginRes) (calls : List CallRes) :
    ReqTrace :=
  match ensure_session st logins with
  | ⟨.raised s, lc⟩ => ⟨.loginHttpError s, st, lc, 0⟩
  | ⟨.ok st1, lc⟩ =>
    let logins1 := if lc = 0 then logins else logins.tail
    let step2 : CallRes × List CallRes × Nat :=
      match calls.headD .exn with
      | .resp s => (.resp s, calls.tail, 1)
      | .exn =>
        match calls.tail.headD .exn with
        | .resp s => (.resp s, calls.tail.tail, 2)
        | .exn => (.exn, calls.tail.tail, 2)
    match step2 with
    | (.exn, _, n) => ⟨.transportExn, st1, lc, n⟩
    | (.resp s, calls1, n) =>
      if s ≠ 401 then ⟨settle s, st1, lc, n⟩
      else
        match login logins1 with
        | .raised e => ⟨.loginHttpError e, st1, lc + 1, n⟩
        | .ok st2 =>
          match calls1.headD .exn with
          | .exn => ⟨.transportExn, st2, lc + 1, n + 1⟩
          | .resp s2 => ⟨settle s2, st2, lc + 1, n + 1⟩

/-! ## Date-literal fallback (`SapClient.get_open_purchase_orders`) -/

def DATE_FORMATS : List String := ["datetimeoffset", "datetime", "iso"]

def dedupeAux (seen : List String) : List String → List String
  | [] => []
  | x :: xs => if seen.contains x then dedupeAux seen xs else x :: dedupeAux (x :: seen) xs

/-- `formats_to_try`: the instance's current format first, then the
remaining candidates in their defined order, deduplicated; a single
`none` (no date literal at all) when no date filter is present. -/
def formatsToTry (dateFilters : Bool) (instFmt : String) : List (Option String) :=
  if dateFilters then (dedupeAux [] (instFmt :: DATE_FORMATS)).map some else [none]

/-- Outcome of one gateway call through `_request`, as seen by the
fallback loop: a parsed payload or an `HTTPError` with its status. -/
inductive SlRes (α : Type)
  | ok (payload : α)
  | httpErr (status : Nat)
  deriving DecidableEq, Repr

inductive FallbackResult (α : Type)
  | success (fmt : Option String) (payload : α) (attempts : Nat)
  | failure (status : Nat) (attempts : Nat)
  deriving DecidableEq, Repr

/-- The `for idx, fmt in enumerate(formats_to_try)` loop: on an
`HTTPError` continue with the next candidate only when a date filter is
present, the status is 400 and candidates remain; otherwise re-raise the
current (= last) error. The per-candidate response is consumed
positionally from `resps`. -/
def fallbackLoop {α : Type} (dateFilters : Bool) (attempts : Nat) :
    List (Option String) → List (SlRes α) → FallbackResult α
  | [], _ => .failure 0 attempts
  | fmt :: fmts, resps =>
    match resps.headD (.httpErr 599) with
    | .ok p => .success fmt p (attempts + 1)
    | .httpErr s =>
      if dateFilters && s == 400 && !fmts.isEmpty then
        fallbackLoop dateFilters (attempts + 1) fmts resps.tail
      else .failure s (attempts + 1)

/-- Mutable date-format memo: the instance's `self._date_format` and the
class-level `SapClient._preferred_date_format`. -/
structure DateFmtState where
  instFmt : String
  classPreferred : Option String
  deriving DecidableEq, Repr

/-- `SapClient.__init__`:
`self._date_format = SapClient._preferred_date_format or _DATE_FORMATS[0]`. -/
def newClientFmt (classPreferred : Option String) : String :=
  classPreferred.getD (DATE_FORMATS.headD "")

/-- The fallback-relevant behaviour of `get_open_purchase_orders`: run the
candidate loop, and on success with a date filter remember the winning
format at both the instance and the class level. -/
def get_open_purchase_orders {α : Type} (st : DateFmtState) (dateFilters : Bool)
    (resps : List (SlRes α)) : FallbackResult α × DateFmtState :=
  match fallbackLoop dateFilters 0 (formatsToTry dateFilters st.instFmt) resps with
  | .success (some f) p a =>
    if dateFilters then (.success (some f) p a, ⟨f, some f⟩)
    else (.success (some f) p a, st)
  | r => (r, st)

/-- An outcome that is a validation rejection with nothing written. -/
def isValidationReject (out : PostOutcome) : Bool :=
  (match out.resp with | .validation _ => true | _ => false) &&
    !out.grpoPosted && out.inserted.isEmpty

/-! ## Concrete fixtures used by witnesses and counterexamples -/

/-- A caller authorized for warehouses WH1 and WH9. -/
def uEx : User := ⟨"user1", ["WH1", "WH9"]⟩

/-- A raw purchase order with two open WH1 lines (open 10 and 6) and one
WH2 line. -/
def oEx : RawOrder :=
  ⟨104624, 42, some "2025-09-05",
   [⟨0, "IT0", none, some 10, some 10, some "WH1"⟩,
    ⟨1, "IT1", none, some 8, some 6, some "WH1"⟩,
    ⟨2, "IT2", none, some 4, some 4, some "WH2"⟩]⟩

/-- The same order after a partial receipt: line 0 open quantity reduced
to 5. -/
def oEx2 : RawOrder :=
  ⟨104624, 42, some "2025-09-05",
   [⟨0, "IT0", none, some 10, some 5, some "WH1"⟩,
    ⟨1, "IT1", none, some 8, some 3, some "WH1"⟩,
    ⟨2, "IT2", none, some 4, some 4, some "WH2"⟩]⟩

def gEx : GrpoRes := ⟨900, "RAW"⟩

def gEx2 : GrpoRes := ⟨901, "RAW2"⟩

/-- An empty `receipts_log` whose `op_hash` column exists. -/
def storeEx : Store := ⟨true, []⟩

/-! ## Supporting lemmas -/

/-- A line that passes every check of the validation loop. -/
def linePasses (ob : List (Int × Rat)) : InLine → Bool
  | .malformed => false
  | .line ln q => decide (0 ≤ q) && decide (q ≤ maxOpenFor ob ln)

/-- The posting set the loop accumulates: parsed lines with positive
quantity, in request order. -/
def posOf (ls : List InLine) : List (Int × Rat) :=
  ls.filterMap fun l =>
    match l with
    | .line ln q => if q > 0 then some (ln, q) else none
    | .malformed => none

lemma validateLines_ok_eq_posOf (ob : List (Int × Rat)) :
    ∀ ls tp, validateLines ob ls = .ok tp → tp = posOf ls := by
  intro ls
  induction ls with
  | nil => intro tp h; simp only [validateLines] at h; cases h; rfl
  | cons l rest ih =>
    intro tp h
    cases l with
    | malformed => simp [validateLines] at h
    | line ln q =>
      simp only [validateLines] at h
      split at h
      · cases h
      · split at h
        · cases h
        · cases hrec : validateLines ob rest with
          | err m => rw [hrec] at h; cases h
          | ok tl =>
            rw [hrec] at h
            cases h
            rw [ih tl hrec]
            by_cases hq : q > 0 <;> simp [posOf, List.filterMap_cons, hq]

lemma posOf_append (pre ls : List InLine) :
    posOf (pre ++ ls) = posOf pre ++ posOf ls := by
  simp [posOf, List.filterMap_append]

lemma validateLines_append_pass (ob : List (Int × Rat)) :
    ∀ (pre : List InLine), (∀ l ∈ pre, linePasses ob l = true) → ∀ ls,
      validateLines ob (pre ++ ls) =
        match validateLines ob ls with
        | .err m => .err m
        | .ok tl => .ok (posOf pre ++ tl) := by
  intro pre
  induction pre with
  | nil =>
    intro _ ls
    cases h : validateLines ob ls <;> simp [posOf, h]
  | cons l pre ih =>
    intro hpass ls
    have hl : linePasses ob l = true := hpass l (by simp)
    cases l with
    | malformed => simp [linePasses] at hl
    | line ln q =>
      simp only [linePasses, Bool.and_eq_true, decide_eq_true_eq] at hl
      obtain ⟨h0, hle⟩ := hl
      have hrec := ih (fun x hx => hpass x (by simp [hx])) ls
      simp only [List.cons_append, validateLines, List.append_eq]
      rw [if_neg (by exact not_lt.mpr h0), if_neg (by exact not_lt.mpr hle), hrec]
      cases h : validateLines ob ls with
      | err m => rfl
      | ok tl =>
        by_cases hq : q > 0 <;> simp [posOf, List.filterMap_cons, hq]

lemma lookupLast_mem {xs : List (Int × Rat)} {k : Int} {v : Rat}
    (h : lookupLast xs k = some v) : ∃ p ∈ xs, p.2 = v := by
  unfold lookupLast at h
  obtain ⟨p, hp, hv⟩ := Option.map_eq_some'.mp h
  exact ⟨p, List.mem_reverse.mp (List.mem_of_find?_eq_some hp), hv⟩

lemma get_purchase_order_lines (o : RawOrder) (w : String) :
    (get_purchase_order o (some w)).lines =
      (o.documentLines.filter fun d =>
        (some w : Option String).isNone ||
          (d.warehouseCode == some w && decide (0 < floatOr0 d.openQuantity))).map
        (fun d =>
          ⟨d.lineNum, d.itemCode, d.itemDescription, floatOr0 d.quantity,
           floatOr0 d.quantity - floatOr0 d.openQuantity, floatOr0 d.openQuantity,
           d.warehouseCode⟩) := rfl

lemma openBy_pos (o : RawOrder) (w : String) : ∀ p ∈ openBy o w, 0 < p.2 := by
  intro p hp
  unfold openBy at hp
  rw [get_purchase_order_lines] at hp
  obtain ⟨l, hl, rfl⟩ := List.mem_map.mp hp
  obtain ⟨d, hd, rfl⟩ := List.mem_map.mp hl
  have hpred := (List.mem_filter.mp hd).2
  simp only [Option.isNone_some, Bool.false_or, Bool.and_eq_true,
    decide_eq_true_eq] at hpred
  exact hpred.2

lemma maxOpenFor_openBy_nonneg (o : RawOrder) (w : String) (ln : Int) :
    0 ≤ maxOpenFor (openBy o w) ln := by
  unfold maxOpenFor
  cases h : lookupLast (openBy o w) ln with
  | none => simp
  | some v =>
    obtain ⟨p, hp, hv⟩ := lookupLast_mem h
    simpa [hv] using le_of_lt (openBy_pos o w p hp)

lemma validateLines_err_of_mem_neg (ob : List (Int × Rat)) :
    ∀ ls, (∃ ln q, InLine.line ln q ∈ ls ∧ q < 0) →
      ∃ m, validateLines ob ls = .err m := by
  intro ls
  induction ls with
  | nil => rintro ⟨ln, q, h, _⟩; simp at h
  | cons l rest ih =>
    rintro ⟨ln, q, hmem, hq⟩
    cases l with
    | malformed => exact ⟨.badLineFormat, rfl⟩
    | line ln0 q0 =>
      by_cases h0 : q0 < 0
      · exact ⟨.negativeQty ln0, by simp [validateLines, h0]⟩
      · by_cases h1 : q0 > maxOpenFor ob ln0
        · refine ⟨.qtyExceeds q0 (maxOpenFor ob ln0) ln0, ?_⟩
          simp [validateLines, h0, h1]
        · have htail : InLine.line ln q ∈ rest := by
            rcases List.mem_cons.mp hmem with heq | h
            · cases heq; exact absurd hq h0
            · exact h
          obtain ⟨m, hm⟩ := ih ⟨ln, q, htail, hq⟩
          exact ⟨m, by simp [validateLines, h0, h1, hm]⟩

lemma validateLines_err_of_mem_exceeds (ob : List (Int × Rat)) :
    ∀ ls, (∃ ln q, InLine.line ln q ∈ ls ∧ maxOpenFor ob ln < q) →
      ∃ m, validateLines ob ls = .err m := by
  intro ls
  induction ls with
  | nil => rintro ⟨ln, q, h, _⟩; simp at h
  | cons l rest ih =>
    rintro ⟨ln, q, hmem, hq⟩
    cases l with
    | malformed => exact ⟨.badLineFormat, rfl⟩
    | line ln0 q0 =>
      by_cases h0 : q0 < 0
      · exact ⟨.negativeQty ln0, by simp [validateLines, h0]⟩
      · by_cases h1 : q0 > maxOpenFor ob ln0
        · refine ⟨.qtyExceeds q0 (maxOpenFor ob ln0) ln0, ?_⟩
          simp [validateLines, h0, h1]
        · have htail : InLine.line ln q ∈ rest := by
            rcases List.mem_cons.mp hmem with heq | h
            · cases heq; exact absurd hq h1
            · exact h
          obtain ⟨m, hm⟩ := ih ⟨ln, q, htail, hq⟩
          exact ⟨m, by simp [validateLines, h0, h1, hm]⟩

lemma posOf_nil_of_nonpos {ls : List InLine}
    (h : ∀ ln q, InLine.line ln q ∈ ls → q ≤ 0) : posOf ls = [] := by
  induction ls with
  | nil => rfl
  | cons l rest ih =>
    have hrest : ∀ ln q, InLine.line ln q ∈ rest → q ≤ 0 :=
      fun ln q hm => h ln q (by simp [hm])
    cases l with
    | malformed => simpa [posOf, List.filterMap_cons] using ih hrest
    | line ln q =>
      have : ¬ q > 0 := not_lt.mpr (h ln q (by simp))
      simp only [posOf, List.filterMap_cons, if_neg this]
      exact ih hrest

lemma isEmpty_append_cons {α : Type} (pre : List α) (x : α) (post : List α) :
    (pre ++ x :: post).isEmpty = false := by
  cases pre <;> rfl

lemma storeHasHash_append_hit (b : Bool) (rows : List LogRow) (row : LogRow)
    (h : String) (hrow : row.opHash = some h) :
    storeHasHash ⟨b, rows ++ [row]⟩ h = true := by
  simp [storeHasHash, List.any_append, hrow]

/-! ### Stable sort by lineNum: permutation and sortedness -/

lemma insertByLineNum_perm (x : Int × Rat) :
    ∀ l, List.Perm (insertByLineNum x l) (x :: l) := by
  intro l
  induction l with
  | nil => rfl
  | cons y ys ih =>
    simp only [insertByLineNum]
    split
    · exact ((ih.cons y).trans (List.Perm.swap x y ys))
    · rfl

lemma sortByLineNum_perm (l : List (Int × Rat)) : List.Perm (sortByLineNum l) l := by
  induction l with
  | nil => rfl
  | cons x xs ih =>
    simp only [sortByLineNum, List.foldr_cons]
    exact (insertByLineNum_perm x _).trans (ih.cons x)

lemma insertByLineNum_sorted (x : Int × Rat) :
    ∀ l, l.Pairwise (fun a b : Int × Rat => a.1 ≤ b.1) →
      (insertByLineNum x l).Pairwise (fun a b : Int × Rat => a.1 ≤ b.1) := by
  intro l
  induction l with
  | nil => intro _; simp [insertByLineNum]
  | cons y ys ih =>
    intro hs
    rw [List.pairwise_cons] at hs
    simp only [insertByLineNum]
    split
    · rename_i hyx
      rw [List.pairwise_cons]
      constructor
      · intro a ha
        rcases List.mem_cons.mp ((insertByLineNum_perm x ys).mem_iff.mp ha) with h | h
        · subst h; exact le_of_lt hyx
        · exact hs.1 a h
      · exact ih hs.2
    · rename_i hyx
      rw [List.pairwise_cons]
      refine ⟨?_, List.pairwise_cons.mpr hs⟩
      intro a ha
      rcases List.mem_cons.mp ha with h | h
      · subst h; exact le_of_not_lt hyx
      · exact le_trans (le_of_not_lt hyx) (hs.1 a h)

lemma sortByLineNum_sorted (l : List (Int × Rat)) :
    (sortByLineNum l).Pairwise (fun a b : Int × Rat => a.1 ≤ b.1) := by
  induction l with
  | nil => simp [sortByLineNum]
  | cons x xs ih => exact insertByLineNum_sorted x _ ih

/-- Two sorted lists that are permutations of each other and have
duplicate-free keys are equal. -/
lemma sorted_perm_nodup_eq {l₁ l₂ : List (Int × Rat)}
    (hp : List.Perm l₁ l₂)
    (hs₁ : l₁.Pairwise (fun a b : Int × Rat => a.1 ≤ b.1))
    (hs₂ : l₂.Pairwise (fun a b : Int × Rat => a.1 ≤ b.1))
    (hnd : (l₁.map Prod.fst).Nodup) : l₁ = l₂ := by
  have hnd₂ : (l₂.map Prod.fst).Nodup := (hp.map Prod.fst).nodup_iff.mp hnd
  have hne₁ : l₁.Pairwise (fun a b : Int × Rat => a.1 ≠ b.1) :=
    (List.pairwise_map.mp hnd)
  have hne₂ : l₂.Pairwise (fun a b : Int × Rat => a.1 ≠ b.1) :=
    (List.pairwise_map.mp hnd₂)
  have hlt₁ : l₁.Pairwise (fun a b : Int × Rat => a.1 < b.1) := by
    have := hs₁.and hne₁
    exact this.imp fun h => lt_of_le_of_ne h.1 h.2
  have hlt₂ : l₂.Pairwise (fun a b : Int × Rat => a.1 < b.1) := by
    have := hs₂.and hne₂
    exact this.imp fun h => lt_of_le_of_ne h.1 h.2
  haveI : IsAntisymm (Int × Rat) (fun a b : Int × Rat => a.1 < b.1) :=
    ⟨fun a b h1 h2 => absurd h2 (not_lt.mpr (le_of_lt h1))⟩
  exact List.eq_of_perm_of_sorted hp hlt₁ hlt₂

lemma sortByLineNum_eq_of_perm {l₁ l₂ : List (Int × Rat)} (hp : List.Perm l₁ l₂)
    (hnd : (l₁.map Prod.fst).Nodup) : sortByLineNum l₁ = sortByLineNum l₂ := by
  have hperm : List.Perm (sortByLineNum l₁) (sortByLineNum l₂) :=
    ((sortByLineNum_perm l₁).trans hp).trans (sortByLineNum_perm l₂).symm
  have hnd₁ : ((sortByLineNum l₁).map Prod.fst).Nodup :=
    ((sortByLineNum_perm l₁).map Prod.fst).nodup_iff.mpr hnd
  exact sorted_perm_nodup_eq hperm (sortByLineNum_sorted l₁)
    (sortByLineNum_sorted l₂) hnd₁

/-! ### Fallback-loop lemmas -/

lemma fallbackLoop_success {α : Type} (p : α) :
    ∀ (k : Nat) (fmts : List (Option String)) (resps : List (SlRes α)) (a : Nat),
      k < fmts.length →
      (∀ i, i < k → resps.getD i (.httpErr 0) = .httpErr 400) →
      resps.getD k (.httpErr 0) = .ok p →
      fallbackLoop true a fmts resps = .success (fmts.getD k none) p (a + (k + 1)) := by
  intro k
  induction k with
  | zero =>
    intro fmts resps a hk _ hok
    cases fmts with
    | nil => simp at hk
    | cons f fs =>
      cases resps with
      | nil => simp [List.getD] at hok
      | cons r rs =>
        simp only [List.getD_cons_zero] at hok
        subst hok
        simp [fallbackLoop]
  | succ k ih =>
    intro fmts resps a hk h400 hok
    cases fmts with
    | nil => simp at hk
    | cons f fs =>
      have h0 := h400 0 (Nat.succ_pos k)
      cases resps with
      | nil => simp [List.getD] at h0
      | cons r rs =>
        simp only [List.getD_cons_zero] at h0
        subst h0
        have hklen : k < fs.length := Nat.lt_of_succ_lt_succ (by simpa using hk)
        have hfs : fs.isEmpty = false := by
          cases fs with
          | nil => simp at hklen
          | cons _ _ => rfl
        have hrec := ih fs rs (a + 1) hklen
          (fun i hi => by simpa [List.getD_cons_succ] using h400 (i + 1) (Nat.succ_lt_succ hi))
          (by simpa [List.getD_cons_succ] using hok)
        simp only [fallbackLoop, List.headD_cons, hfs]
        rw [if_pos (by simp)]
        simp only [List.tail_cons]
        rw [hrec]
        have harith : a + 1 + (k + 1) = a + (k + 1 + 1) := by omega
        rw [harith]
        simp [List.getD_cons_succ]

lemma fallbackLoop_exhausted {α : Type} :
    ∀ (fmts : List (Option String)) (resps : List (SlRes α)) (a : Nat),
      fmts ≠ [] →
      (∀ i, i < fmts.length → resps.getD i (.httpErr 0) = .httpErr 400) →
      fallbackLoop (α := α) true a fmts resps = .failure 400 (a + fmts.length) := by
  intro fmts
  induction fmts with
  | nil => intro _ _ h; exact absurd rfl h
  | cons f fs ih =>
    intro resps a _ h400
    have h0 := h400 0 (by simp)
    cases resps with
    | nil => simp [List.getD] at h0
    | cons r rs =>
      simp only [List.getD_cons_zero] at h0
      subst h0
      by_cases hfs : fs = []
      · subst hfs; simp [fallbackLoop]
      · have hfsb : fs.isEmpty = false := by
          cases fs with
          | nil => exact absurd rfl hfs
          | cons _ _ => rfl
        have hrec := ih rs (a + 1) hfs
          (fun i hi => by
            simpa [List.getD_cons_succ] using h400 (i + 1) (by simpa using Nat.succ_lt_succ hi))
        simp only [fallbackLoop, List.headD_cons, hfsb]
        rw [if_pos (by simp)]
        simp only [List.tail_cons]
        rw [hrec]
        have harith : a + 1 + fs.length = a + (fs.length + 1) := by omega
        simp [List.length_cons, harith]

lemma formatsToTry_cons (f : String) :
    formatsToTry true f = some f :: (dedupeAux [f] DATE_FORMATS).map some := by
  simp [formatsToTry, dedupeAux]

/-! ## Claim theorems -/

/-- Claim C2: a receipt request containing a line whose quantity exceeds
that line's open quantity at validation time (the first line failing any
check) is rejected with a validation error carrying the offending
lineNum, the requested quantity and the observed open quantity, and the
GRPO write is never invoked. -/
theorem C2_quantity_exceeds_open_rejected
    (u : User) (o : RawOrder) (g : GrpoRes) (today : String) (store : Store)
    (de : Int) (wp ref : Option String) (w : String)
    (hw : resolveWhs wp u = some w) (ha : u.warehouses.contains w = true) :
    (∀ (pre post : List InLine) (ln : Int) (q : Rat),
      (∀ l ∈ pre, linePasses (openBy o w) l = true) →
      maxOpenFor (openBy o w) ln < q →
      post_receipt u ⟨some de, wp, ref, pre ++ .line ln q :: post⟩ o g today store =
        ⟨.validation (.qtyExceeds q (maxOpenFor (openBy o w) ln) ln), true, false, [],
         store⟩) ∧
    (∀ (ls : List InLine) (ln : Int) (q : Rat),
      InLine.line ln q ∈ ls → maxOpenFor (openBy o w) ln < q → ls.isEmpty = false →
      isValidationReject (post_receipt u ⟨some de, wp, ref, ls⟩ o g today store) = true) := by
  constructor
  · intro pre post ln q hpre hq
    have h0 : (0 : Rat) ≤ q := le_of_lt (lt_of_le_of_lt (maxOpenFor_openBy_nonneg o w ln) hq)
    have hv : validateLines (openBy o w) (pre ++ .line ln q :: post) =
        .err (.qtyExceeds q (maxOpenFor (openBy o w) ln) ln) := by
      rw [validateLines_append_pass _ pre hpre]
      have hhd : validateLines (openBy o w) (.line ln q :: post) =
          .err (.qtyExceeds q (maxOpenFor (openBy o w) ln) ln) := by
        simp only [validateLines]
        rw [if_neg (not_lt.mpr h0), if_pos hq]
      rw [hhd]
    simp only [post_receipt, hw, ha, hv, isEmpty_append_cons]
    simp
  · intro ls ln q hmem hq hls
    obtain ⟨m, hm⟩ := validateLines_err_of_mem_exceeds (openBy o w) ls ⟨ln, q, hmem, hq⟩
    simp only [post_receipt, hw, ha, hls, hm]
    simp [isValidationReject]

/-- Claim C2 witness: posting quantity 15 against line 1 whose observed
open quantity is 6, after a clean line, yields exactly that validation
error with no GRPO write. -/
theorem C2_witness :
    post_receipt uEx ⟨some 104624, some "WH1", none, [.line 0 5, .line 1 15]⟩ oEx gEx
        "2025-10-12" storeEx =
      ⟨.validation (.qtyExceeds 15 (maxOpenFor (openBy oEx "WH1") 1) 1), true, false, [],
       storeEx⟩ :=
  (C2_quantity_exceeds_open_rejected uEx oEx gEx "2025-10-12" storeEx 104624
    (some "WH1") none "WH1" (by decide) (by decide)).1 [.line 0 5] [] 1 15
    (by decide) (by decide)

/-- Claim C5: a request for a warehouse outside the caller's authorized
set is rejected with FORBIDDEN by all three operations, before any ERP
call (the listing and detail gateways are not invoked and the receipt
flow neither reads nor writes the ERP). -/
theorem C5_unauthorized_warehouse_rejected
    {α : Type} (u : User) (wp : Option String) (w : String) (erpData : α)
    (de : Int) (ref : Option String) (ls : List InLine)
    (o : RawOrder) (g : GrpoRes) (today : String) (store : Store)
    (hw : resolveWhs wp u = some w) (ha : u.warehouses.contains w = false) :
    list_orders u wp erpData = ⟨.forbidden w, false⟩ ∧
    get_order u de wp o = ⟨.forbidden w, false⟩ ∧
    post_receipt u ⟨some de, wp, ref, ls⟩ o g today store =
      ⟨.forbidden w, false, false, [], store⟩ := by
  refine ⟨?_, ?_, ?_⟩ <;>
    · simp only [list_orders, get_order, post_receipt, hw, ha]
      simp

/-- Claim C5 witness: warehouse WH2 is not among the caller's warehouses,
so all three operations reject it without touching the ERP. -/
theorem C5_witness :
    list_orders uEx (some "WH2") (0 : Nat) = ⟨.forbidden "WH2", false⟩ ∧
    get_order uEx 104624 (some "WH2") oEx = ⟨.forbidden "WH2", false⟩ ∧
    post_receipt uEx ⟨some 104624, some "WH2", none, [.line 2 1]⟩ oEx gEx
        "2025-10-12" storeEx = ⟨.forbidden "WH2", false, false, [], storeEx⟩ :=
  C5_unauthorized_warehouse_rejected uEx (some "WH2") "WH2" (0 : Nat) 104624 none
    [.line 2 1] oEx gEx "2025-10-12" storeEx (by decide) (by decide)

/-- Claim C6: with a session installed, a 401 response triggers exactly
one re-login and exactly one retry of the original call (attempt count 2,
login count 1); the retried call's status goes straight through
`raise_for_status`, so a second 401 — or any other non-2xx — propagates
as an error instead of being retried again. -/
theorem C6_single_relogin_single_retry
    (sid sid2 : String) (lrest : List LoginRes) (c : Nat) (rest : List CallRes) :
    sapRequest ⟨some sid⟩ (.ok sid2 :: lrest) (.resp 401 :: .resp c :: rest) =
      ⟨settle c, ⟨some sid2⟩, 1, 2⟩ ∧
    settle 401 = .httpError 401 :=
  ⟨rfl, rfl⟩

/-- Claim C7 counterexample: the client state holds no session timestamp
at all, so `ensure_session` with a present session performs zero logins
and leaves the session untouched no matter how much time has passed since
it was established — contradicting the claimed 25-minute freshness
threshold and the claimed invalidation of stale sessions. -/
theorem C7_counterexample_stale_session_reused :
    ensure_session ⟨some "SID-OLD"⟩ [] = ⟨.ok ⟨some "SID-OLD"⟩, 0⟩ := by
  decide

/-- Claim C7 (amended): `ensure_session` performs a login exactly when no
session id is present; a present session is returned unchanged (session
age is never consulted — the state stores no timestamp), and with no
session the result is exactly that of `login`. -/
theorem C7_amended_presence_check_only (st : ClientState) (logins : List LoginRes) :
    ((ensure_session st logins).loginCount = if st.sessionId.isSome then 0 else 1) ∧
    (st.sessionId.isSome = true → ensure_session st logins = ⟨.ok st, 0⟩) ∧
    (st.sessionId = none → (ensure_session st logins).result = login logins) := by
  by_cases hs : st.sessionId.isSome
  · refine ⟨by simp [ensure_session, hs], fun _ => by simp [ensure_session, hs], ?_⟩
    intro hnone
    rw [hnone] at hs
    simp at hs
  · have hnone : st.sessionId = none := Option.not_isSome_iff_eq_none.mp (by simpa using hs)
    refine ⟨by simp [ensure_session, hs], fun h => absurd h (by simpa using hs), ?_⟩
    intro _
    simp [ensure_session, hs]

/-- Claim C7 witness: a client with a present session calls
`ensure_session` and no login happens. -/
theorem C7_witness : ensure_session ⟨some "SID-W"⟩ [] = ⟨.ok ⟨some "SID-W"⟩, 0⟩ :=
  (C7_amended_presence_check_only ⟨some "SID-W"⟩ []).2.1 (by decide)

/-- Claim C10: when the duplicate pre-check query raises (the `op_hash`
column is missing), `post_receipt` swallows the error and proceeds to the
GRPO write with no duplicate protection — for every store contents, the
write happens and the audit row is inserted without a fingerprint. -/
theorem C10_precheck_error_swallowed
    (u : User) (de : Int) (wp ref : Option String) (w : String) (ls : List InLine)
    (o : RawOrder) (g : GrpoRes) (today : String) (store : Store) (tp : List (Int × Rat))
    (hw : resolveWhs wp u = some w) (ha : u.warehouses.contains w = true)
    (hls : ls.isEmpty = false)
    (hv : validateLines (openBy o w) ls = .ok tp) (htp : tp.isEmpty = false)
    (hcol : store.opHashColumn = false) :
    post_receipt u ⟨some de, wp, ref, ls⟩ o g today store =
      ⟨.created g.docEntry (op_hash u.sub de w tp today ref), true, true,
       [⟨de, none, none, w, sumQty tp, u.sub, g.docEntry, truncChars 65000 g.rawJson, none⟩],
       ⟨false, store.rows ++
         [⟨de, none, none, w, sumQty tp, u.sub, g.docEntry, truncChars 65000 g.rawJson, none⟩]⟩⟩ := by
  simp only [post_receipt, hw, ha, hls, hv, htp, hcol]
  simp

/-- Claim C10 witness: with the `op_hash` column missing, a receipt
identical to one already logged is still posted to the ERP. -/
theorem C10_witness :
    post_receipt uEx ⟨some 104624, some "WH1", none, [.line 0 5]⟩ oEx gEx
        "2025-10-12" ⟨false, []⟩ =
      ⟨.created 900 (op_hash "user1" 104624 "WH1" [(0, 5)] "2025-10-12" none), true, true,
       [⟨104624, none, none, "WH1", sumQty [(0, 5)], "user1", 900, "RAW", none⟩],
       ⟨false, [⟨104624, none, none, "WH1", sumQty [(0, 5)], "user1", 900, "RAW", none⟩]⟩⟩ :=
  C10_precheck_error_swallowed uEx 104624 (some "WH1") none "WH1" [.line 0 5]
    oEx gEx "2025-10-12" ⟨false, []⟩ [(0, 5)] (by decide) (by decide) (by decide)
    (by decide) (by decide) (by decide)

/-- Claim C1: with the `op_hash` column present, a valid receipt posts
once and records its fingerprint; replaying the same request (against
possibly updated open quantities, as long as it still validates) is
rejected as DUPLICATE with no second GRPO write — the duplicate check
fires before the ERP write, so at most one post succeeds. -/
theorem C1_duplicate_rejected_before_erp_write
    (u : User) (de : Int) (wp ref : Option String) (w : String) (ls : List InLine)
    (o o2 : RawOrder) (g g2 : GrpoRes) (today : String) (store : Store)
    (tp tp2 : List (Int × Rat))
    (hw : resolveWhs wp u = some w) (ha : u.warehouses.contains w = true)
    (hls : ls.isEmpty = false)
    (hv1 : validateLines (openBy o w) ls = .ok tp) (htp : tp.isEmpty = false)
    (hv2 : validateLines (openBy o2 w) ls = .ok tp2)
    (hcol : store.opHashColumn = true)
    (hnew : storeHasHash store (op_hash u.sub de w tp today ref) = false) :
    post_receipt u ⟨some de, wp, ref, ls⟩ o g today store =
      ⟨.created g.docEntry (op_hash u.sub de w tp today ref), true, true,
       [⟨de, none, none, w, sumQty tp, u.sub, g.docEntry, truncChars 65000 g.rawJson,
         some (op_hash u.sub de w tp today ref)⟩],
       ⟨true, store.rows ++
         [⟨de, none, none, w, sumQty tp, u.sub, g.docEntry, truncChars 65000 g.rawJson,
           some (op_hash u.sub de w tp today ref)⟩]⟩⟩ ∧
    post_receipt u ⟨some de, wp, ref, ls⟩ o2 g2 today
        ⟨true, store.rows ++
          [⟨de, none, none, w, sumQty tp, u.sub, g.docEntry, truncChars 65000 g.rawJson,
            some (op_hash u.sub de w tp today ref)⟩]⟩ =
      ⟨.duplicate, true, false, [],
       ⟨true, store.rows ++
         [⟨de, none, none, w, sumQty tp, u.sub, g.docEntry, truncChars 65000 g.rawJson,
           some (op_hash u.sub de w tp today ref)⟩]⟩⟩ := by
  have htp2 : tp2 = tp :=
    (validateLines_ok_eq_posOf _ ls tp2 hv2).trans
      (validateLines_ok_eq_posOf _ ls tp hv1).symm
  rw [htp2] at hv2
  constructor
  · simp only [post_receipt, hw, ha, hls, hv1, htp, hcol, hnew]
    simp
  · have hhit :
        storeHasHash
          ⟨true, store.rows ++
            [⟨de, none, none, w, sumQty tp, u.sub, g.docEntry, truncChars 65000 g.rawJson,
              some (op_hash u.sub de w tp today ref)⟩]⟩
          (op_hash u.sub de w tp today ref) = true :=
      storeHasHash_append_hit _ _ _ _ rfl
    simp only [post_receipt, hw, ha, hls, hv2, htp, hhit]
    simp

/-- Claim C1 witness: a receipt for line 0 of quantity 5 posts once; the
identical request replayed against the store that now holds the
fingerprint (and the order with reduced open quantity) is rejected as
DUPLICATE with no second write. -/
theorem C1_witness :
    post_receipt uEx ⟨some 104624, some "WH1", none, [.line 0 5]⟩ oEx gEx "2025-10-12"
        storeEx =
      ⟨.created 900 (op_hash "user1" 104624 "WH1" [(0, 5)] "2025-10-12" none), true, true,
       [⟨104624, none, none, "WH1", sumQty [(0, 5)], "user1", 900, truncChars 65000 "RAW",
         some (op_hash "user1" 104624 "WH1" [(0, 5)] "2025-10-12" none)⟩],
       ⟨true, [⟨104624, none, none, "WH1", sumQty [(0, 5)], "user1", 900,
         truncChars 65000 "RAW",
         some (op_hash "user1" 104624 "WH1" [(0, 5)] "2025-10-12" none)⟩]⟩⟩ ∧
    post_receipt uEx ⟨some 104624, some "WH1", none, [.line 0 5]⟩ oEx2 gEx2 "2025-10-12"
        ⟨true, [⟨104624, none, none, "WH1", sumQty [(0, 5)], "user1", 900,
          truncChars 65000 "RAW",
          some (op_hash "user1" 104624 "WH1" [(0, 5)] "2025-10-12" none)⟩]⟩ =
      ⟨.duplicate, true, false, [],
       ⟨true, [⟨104624, none, none, "WH1", sumQty [(0, 5)], "user1", 900,
         truncChars 65000 "RAW",
         some (op_hash "user1" 104624 "WH1" [(0, 5)] "2025-10-12" none)⟩]⟩⟩ :=
  C1_duplicate_rejected_before_erp_write uEx 104624 (some "WH1") none "WH1" [.line 0 5]
    oEx oEx2 gEx gEx2 "2025-10-12" storeEx [(0, 5)] [(0, 5)]
    (by decide) (by decide) (by decide) (by decide) (by decide) (by decide)
    (by decide) (by decide)

/-- Claim C3 counterexample: two requests with identical values for all
five claimed fingerprint inputs (actor, docEntry, warehouse, lines, day)
but different `supplierRef` values produce different fingerprints — the
hashed payload also includes `supplierRef` when it is present. -/
theorem C3_counterexample_supplier_ref_changes_fingerprint :
    op_hash "user1" 104624 "WH1" [(0, 5)] "2025-10-12" none ≠
      op_hash "user1" 104624 "WH1" [(0, 5)] "2025-10-12" (some "REM-1") := by
  decide

/-- Claim C3 (amended): the fingerprint is a deterministic hash over
{actorIdentity, docEntry, warehouseCode, positive lines sorted by
lineNum, calendar day, and supplierRef when present}; reordering lines
whose lineNums are pairwise distinct yields the same fingerprint. -/
theorem C3_amended_fingerprint_line_order_invariant
    (sub : String) (de : Int) (w : String) (tp tp2 : List (Int × Rat))
    (date : String) (ref : Option String)
    (hp : List.Perm tp tp2) (hnd : (tp.map Prod.fst).Nodup) :
    op_hash sub de w tp date ref = op_hash sub de w tp2 date ref := by
  unfold op_hash
  rw [sortByLineNum_eq_of_perm hp hnd]

/-- Claim C3 witness: swapping two lines with distinct lineNums leaves the
fingerprint unchanged. -/
theorem C3_witness :
    op_hash "user1" 104624 "WH1" [(0, 5), (1, 3)] "2025-10-12" (some "R") =
      op_hash "user1" 104624 "WH1" [(1, 3), (0, 5)] "2025-10-12" (some "R") :=
  C3_amended_fingerprint_line_order_invariant "user1" 104624 "WH1"
    [(0, 5), (1, 3)] [(1, 3), (0, 5)] "2025-10-12" (some "R")
    (by decide) (by decide)

/-- Claim C4 counterexample: a successful post of a receipt with two
accepted lines creates one single audit row, not one per line; the row
carries no lineNum and the aggregated posted quantity 5 + 3 = 8. -/
theorem C4_counterexample_one_row_for_two_lines :
    (post_receipt uEx ⟨some 104624, some "WH1", none, [.line 0 5, .line 1 3]⟩ oEx gEx
        "2025-10-12" storeEx).grpoPosted = true ∧
    (post_receipt uEx ⟨some 104624, some "WH1", none, [.line 0 5, .line 1 3]⟩ oEx gEx
        "2025-10-12" storeEx).inserted.length = 1 ∧
    (post_receipt uEx ⟨some 104624, some "WH1", none, [.line 0 5, .line 1 3]⟩ oEx gEx
        "2025-10-12" storeEx).inserted.map (fun r => r.poLineNum) = [none] := by
  refine ⟨by decide, by decide, by decide⟩

/-- Claim C4 (amended): after a successful ERP post, exactly one audit
record is created for the whole receipt (not one per line); it carries no
lineNum, the total posted quantity summed over accepted lines, the raw
ERP response truncated to 65000 characters, and the fingerprint exactly
when the `op_hash` column exists. -/
theorem C4_amended_single_aggregate_audit_row
    (u : User) (de : Int) (wp ref : Option String) (w : String) (ls : List InLine)
    (o : RawOrder) (g : GrpoRes) (today : String) (store : Store) (tp : List (Int × Rat))
    (hw : resolveWhs wp u = some w) (ha : u.warehouses.contains w = true)
    (hls : ls.isEmpty = false)
    (hv : validateLines (openBy o w) ls = .ok tp) (htp : tp.isEmpty = false)
    (hdup : (store.opHashColumn &&
      storeHasHash store (op_hash u.sub de w tp today ref)) = false) :
    post_receipt u ⟨some de, wp, ref, ls⟩ o g today store =
      ⟨.created g.docEntry (op_hash u.sub de w tp today ref), true, true,
       [⟨de, none, none, w, sumQty tp, u.sub, g.docEntry, truncChars 65000 g.rawJson,
         if store.opHashColumn then some (op_hash u.sub de w tp today ref) else none⟩],
       ⟨store.opHashColumn, store.rows ++
         [⟨de, none, none, w, sumQty tp, u.sub, g.docEntry, truncChars 65000 g.rawJson,
           if store.opHashColumn then some (op_hash u.sub de w tp today ref) else none⟩]⟩⟩ := by
  simp only [post_receipt, hw, ha, hls, hv, htp, hdup]
  simp

/-- Claim C4 witness: a two-line receipt produces exactly one aggregate
audit row with the fingerprint. -/
theorem C4_witness :
    post_receipt uEx ⟨some 104624, some "WH1", none, [.line 0 5, .line 1 3]⟩ oEx gEx
        "2025-10-12" storeEx =
      ⟨.created 900 (op_hash "user1" 104624 "WH1" [(0, 5), (1, 3)] "2025-10-12" none),
       true, true,
       [⟨104624, none, none, "WH1", sumQty [(0, 5), (1, 3)], "user1", 900,
         truncChars 65000 "RAW",
         if (storeEx).opHashColumn then
           some (op_hash "user1" 104624 "WH1" [(0, 5), (1, 3)] "2025-10-12" none)
         else none⟩],
       ⟨true, [⟨104624, none, none, "WH1", sumQty [(0, 5), (1, 3)], "user1", 900,
         truncChars 65000 "RAW",
         if (storeEx).opHashColumn then
           some (op_hash "user1" 104624 "WH1" [(0, 5), (1, 3)] "2025-10-12" none)
         else none⟩]⟩⟩ :=
  C4_amended_single_aggregate_audit_row uEx 104624 (some "WH1") none "WH1"
    [.line 0 5, .line 1 3] oEx gEx "2025-10-12" storeEx [(0, 5), (1, 3)]
    (by decide) (by decide) (by decide) (by decide) (by decide) (by decide)

/-- Claim C9 counterexample: a request containing a zero-quantity line
alongside a valid positive line is NOT rejected: the zero line is
silently dropped and the receipt posts for the remaining line. -/
theorem C9_counterexample_zero_qty_line_accepted :
    (post_receipt uEx ⟨some 104624, some "WH1", none, [.line 0 0, .line 1 3]⟩ oEx gEx
        "2025-10-12" storeEx).resp =
      .created 900 (op_hash "user1" 104624 "WH1" [(1, 3)] "2025-10-12" none) ∧
    (post_receipt uEx ⟨some 104624, some "WH1", none, [.line 0 0, .line 1 3]⟩ oEx gEx
        "2025-10-12" storeEx).grpoPosted = true := by
  decide

/-- Claim C9 (amended): the validation loop rejects any strictly negative
quantity (and any malformed line) with a validation error; zero
quantities are merely dropped from the posting set, and a request in
which no line has positive quantity is rejected with a validation error;
in all these cases nothing is posted or inserted. -/
theorem C9_amended_negative_rejected_zero_dropped
    (u : User) (de : Int) (wp ref : Option String) (w : String) (ls : List InLine)
    (o : RawOrder) (g : GrpoRes) (today : String) (store : Store)
    (hw : resolveWhs wp u = some w) (ha : u.warehouses.contains w = true)
    (hls : ls.isEmpty = false) :
    ((∃ ln q, InLine.line ln q ∈ ls ∧ q < 0) →
      isValidationReject (post_receipt u ⟨some de, wp, ref, ls⟩ o g today store) = true) ∧
    ((∀ ln q, InLine.line ln q ∈ ls → q ≤ 0) →
      isValidationReject (post_receipt u ⟨some de, wp, ref, ls⟩ o g today store) = true) := by
  constructor
  · intro hex
    obtain ⟨m, hm⟩ := validateLines_err_of_mem_neg (openBy o w) ls hex
    simp only [post_receipt, hw, ha, hls, hm]
    simp [isValidationReject]
  · intro hall
    cases hv : validateLines (openBy o w) ls with
    | err m =>
      simp only [post_receipt, hw, ha, hls, hv]
      simp [isValidationReject]
    | ok tp =>
      obtain rfl : tp = [] :=
        (validateLines_ok_eq_posOf _ ls tp hv).trans (posOf_nil_of_nonpos hall)
      simp only [post_receipt, hw, ha, hls, hv]
      simp [isValidationReject]

/-- Claim C9 witness: a request with a negative-quantity line is rejected
with a validation error and nothing is written. -/
theorem C9_witness :
    isValidationReject (post_receipt uEx ⟨some 104624, some "WH1", none, [.line 0 (-1)]⟩
      oEx gEx "2025-10-12" storeEx) = true :=
  (C9_amended_negative_rejected_zero_dropped uEx 104624 (some "WH1") none "WH1"
      [.line 0 (-1)] oEx gEx "2025-10-12" storeEx
      (by decide) (by decide) (by decide)).1 ⟨0, -1, by decide, by decide⟩

/-- Claim C8: with a date filter present, the candidate date-literal
formats are tried in their deduplicated order starting from the
instance's current format; the loop moves to the next candidate exactly
on an HTTP 400 (any other error is raised immediately), surfaces the
last error when all candidates are rejected, and on success memoizes the
winning format at both instance and class level, so a new client starts
from it and a subsequent call succeeds on its first attempt. -/
theorem C8_date_literal_fallback
    {α : Type} (st : DateFmtState) (k : Nat) (p q : α)
    (resps resps2 rest3 : List (SlRes α)) (s3 : Nat) (f : String)
    (hk : k < (formatsToTry true st.instFmt).length)
    (h400 : ∀ i, i < k → resps.getD i (.httpErr 0) = .httpErr 400)
    (hok : resps.getD k (.httpErr 0) = .ok p)
    (hf : (formatsToTry true st.instFmt).getD k none = some f)
    (hex : ∀ i, i < (formatsToTry true st.instFmt).length →
      resps2.getD i (.httpErr 0) = .httpErr 400)
    (hs3 : (s3 == 400) = false) :
    get_open_purchase_orders st true resps = (.success (some f) p (k + 1), ⟨f, some f⟩) ∧
    newClientFmt (some f) = f ∧
    get_open_purchase_orders ⟨f, some f⟩ true (.ok q :: resps) =
      (.success (some f) q 1, ⟨f, some f⟩) ∧
    get_open_purchase_orders st true resps2 =
      (.failure 400 (formatsToTry true st.instFmt).length, st) ∧
    get_open_purchase_orders st true (.httpErr s3 :: rest3) = (.failure s3 1, st) := by
  have hloop := fallbackLoop_success p k (formatsToTry true st.instFmt) resps 0 hk h400 hok
  rw [hf] at hloop
  have hne : formatsToTry true st.instFmt ≠ [] := by
    rw [formatsToTry_cons]; simp
  refine ⟨?_, rfl, ?_, ?_, ?_⟩
  · unfold get_open_purchase_orders
    rw [hloop]
    simp
  · unfold get_open_purchase_orders
    simp only [formatsToTry_cons, fallbackLoop, List.headD_cons]
    simp
  · have hloop2 := fallbackLoop_exhausted (formatsToTry true st.instFmt) resps2 0 hne hex
    unfold get_open_purchase_orders
    rw [hloop2]
    simp
  · unfold get_open_purchase_orders
    rw [formatsToTry_cons]
    simp [fallbackLoop, hs3]

/-- Claim C8 witness: starting from the default format, the first
candidate is rejected with 400 and the second succeeds on attempt 2; the
winning format "datetime" is memoized at instance and class level; a new
call then succeeds on its first attempt; three straight 400s surface the
last 400 after all three candidates; a 500 is raised after one attempt. -/
theorem C8_witness :
    get_open_purchase_orders (⟨"datetimeoffset", none⟩ : DateFmtState) true
        [SlRes.httpErr 400, SlRes.ok (7 : Nat)] =
      (.success (some "datetime") 7 2, ⟨"datetime", some "datetime"⟩) ∧
    newClientFmt (some "datetime") = "datetime" ∧
    get_open_purchase_orders (⟨"datetime", some "datetime"⟩ : DateFmtState) true
        (SlRes.ok 9 :: [SlRes.httpErr 400, SlRes.ok (7 : Nat)]) =
      (.success (some "datetime") 9 1, ⟨"datetime", some "datetime"⟩) ∧
    get_open_purchase_orders (⟨"datetimeoffset", none⟩ : DateFmtState) true
        ([.httpErr 400, .httpErr 400, .httpErr 400] : List (SlRes Nat)) =
      (.failure 400 (formatsToTry true "datetimeoffset").length,
       ⟨"datetimeoffset", none⟩) ∧
    get_open_purchase_orders (⟨"datetimeoffset", none⟩ : DateFmtState) true
        ([.httpErr 500] : List (SlRes Nat)) =
      (.failure 500 1, ⟨"datetimeoffset", none⟩) :=
  C8_date_literal_fallback ⟨"datetimeoffset", none⟩ 1 7 9
    [SlRes.httpErr 400, SlRes.ok 7]
    [SlRes.httpErr 400, SlRes.httpErr 400, SlRes.httpErr 400] [] 500 "datetime"
    (by decide)
    (by intro i hi; have h0 : i = 0 := Nat.lt_one_iff.mp hi; subst h0; rfl)
    rfl (by decide)
    (by
      intro i hi
      have hlen : (formatsToTry true "datetimeoffset").length = 3 := rfl
      rw [hlen] at hi
      interval_cases i <;> rfl)
    rfl

end Entradas

/-- NIST test vector check: empty string. -/
example : Entradas.Sha256.hexOfString "" =
    "e3b0c44298fc1c149afbf4c8996fb92427ae41e4649b934ca495991b7852b855" := by
  decide

/-- NIST test vector check: "abc". -/
example : Entradas.Sha256.hexOfString "abc" =
    "ba7816bf8f01cfea414140de5dae2223b00361a396177a9cb410ff61f20015ad" := by
  decide
